import Mathlib

/-!
Verification development for the KliverOnChain deployment orchestrator
(`src/deploy/kliver_deploy/`).  Python strings are modelled as `List Char`,
shell-command results as explicit input values, and each orchestrator
operation as a pure function of the results returned by the external
commands it runs.
-/

/-- Python strings are sequences of characters. -/
abbrev Str := List Char

/-- Result dictionary produced by `CommandRunner.run_command` in
`kliver_deploy/utils.py`: the `success` flag, captured stdout and stderr.
The `returncode` entry is never read by the orchestrator and is omitted. -/
structure CmdResult where
  success : Bool
  stdout : Str
  stderr : Str
deriving DecidableEq

/-- Match a literal at the head of the input; on success return the
remaining characters (model of a regex literal at one position). -/
def litMatch : Str → Str → Option Str
  | [], rest => some rest
  | _ :: _, [] => none
  | l :: ls, c :: cs => if c = l then litMatch ls cs else none

/-- Python `needle in haystack` substring test. -/
def occurs (needle : Str) : Str → Bool
  | [] => (litMatch needle []).isSome
  | c :: rest => (litMatch needle (c :: rest)).isSome || occurs needle rest

/-- Characters matched by Python's regex class `\s`. -/
def pyIsSpace (c : Char) : Bool :=
  c = ' ' || c = '\t' || c = '\n' || c = '\r' || c = '\x0b' || c = '\x0c'

/-- Characters matched by the regex class `[a-fA-F0-9]`. -/
def isHexDigitCh (c : Char) : Bool :=
  ('0' ≤ c && c ≤ '9') || ('a' ≤ c && c ≤ 'f') || ('A' ≤ c && c ≤ 'F')

/-- Match the regex tail `\s*(0x[a-fA-F0-9]+)` at the current position and
return the captured group.  Greedy munching is exact here because a
whitespace run cannot end in `0` and a hex run cannot continue past the
first non-hex character. -/
def matchHexTail (s : Str) : Option Str :=
  match s.dropWhile pyIsSpace with
  | '0' :: 'x' :: rest =>
    let digits := rest.takeWhile isHexDigitCh
    if digits.isEmpty then none else some ('0' :: 'x' :: digits)
  | _ => none

/-- Try the pattern `(?:alt1|alt2|...)\s*(0x[a-fA-F0-9]+)` anchored at the
current position, trying the literal alternatives in order. -/
def tryAltsAt (alts : List Str) (s : Str) : Option Str :=
  match alts with
  | [] => none
  | lit :: more =>
    match litMatch lit s with
    | some rest =>
      match matchHexTail rest with
      | some grp => some grp
      | none => tryAltsAt more s
    | none => tryAltsAt more s

/-- `re.search` for `(?:alt1|alt2|...)\s*(0x[a-fA-F0-9]+)`: scan positions
left to right and return the first captured group. -/
def searchPat (alts : List Str) : Str → Option Str
  | [] => tryAltsAt alts []
  | c :: rest =>
    match tryAltsAt alts (c :: rest) with
    | some g => some g
    | none => searchPat alts rest

/-- Try a list of such patterns in order, as the `for pattern in patterns`
loops of `StarknetUtils` do. -/
def searchPats : List (List Str) → Str → Option Str
  | [], _ => none
  | p :: ps, out =>
    match searchPat p out with
    | some g => some g
    | none => searchPats ps out

/-- Patterns of `StarknetUtils.parse_class_hash`. -/
def classHashPats : List (List Str) :=
  [["class_hash:".data, "Class Hash:".data],
   ["Contract class hash:".data],
   ["Declared class hash:".data]]

/-- Patterns of `StarknetUtils.parse_transaction_hash`. -/
def txHashPats : List (List Str) :=
  [["transaction_hash:".data, "Transaction Hash:".data],
   ["Transaction hash:".data],
   ["Tx hash:".data]]

/-- Patterns of `StarknetUtils.parse_contract_address`. -/
def contractAddressPats : List (List Str) :=
  [["contract_address:".data, "Contract Address:".data],
   ["Contract deployed at:".data],
   ["Deployed contract address:".data]]

/-- `StarknetUtils.parse_class_hash` (utils.py): first matching pattern wins;
`none` models the raised `ValueError`. -/
def parse_class_hash (out : Str) : Option Str := searchPats classHashPats out

/-- `StarknetUtils.parse_transaction_hash` (utils.py). -/
def parse_transaction_hash (out : Str) : Option Str := searchPats txHashPats out

/-- `StarknetUtils.parse_contract_address` (utils.py). -/
def parse_contract_address (out : Str) : Option Str :=
  searchPats contractAddressPats out

/-- Match `Class with hash (0x[a-fA-F0-9]+) is already declared` anchored at
the current position (deployer.py, `declare_contract`). -/
def alreadyDeclaredAt (s : Str) : Option Str :=
  match litMatch "Class with hash ".data s with
  | none => none
  | some r1 =>
    match r1 with
    | '0' :: 'x' :: rest =>
      let d := rest.takeWhile isHexDigitCh
      if d.isEmpty then none
      else
        match litMatch " is already declared".data (rest.dropWhile isHexDigitCh) with
        | some _ => some ('0' :: 'x' :: d)
        | none => none
    | _ => none

/-- `re.search` for the already-declared pattern. -/
def alreadyDeclaredSearch : Str → Option Str
  | [] => alreadyDeclaredAt []
  | c :: rest =>
    match alreadyDeclaredAt (c :: rest) with
    | some g => some g
    | none => alreadyDeclaredSearch rest

/-- `re.search(r'0x[a-fA-F0-9]+', s)` anchored at the current position
(used by `validate_registry_address_set`). -/
def firstHexAt : Str → Option Str
  | '0' :: 'x' :: rest =>
    let d := rest.takeWhile isHexDigitCh
    if d.isEmpty then none else some ('0' :: 'x' :: d)
  | _ => none

/-- `re.search(r'0x[a-fA-F0-9]+', s)`: leftmost match. -/
def firstHexMatch : Str → Option Str
  | [] => firstHexAt []
  | c :: rest =>
    match firstHexAt (c :: rest) with
    | some g => some g
    | none => firstHexMatch rest

/-- Python `str.lower()` (the addresses involved are ASCII hex). -/
def toLowerS (s : Str) : Str := s.map Char.toLower

/-- Outcome of one run of `TransactionWaiter.wait_for_confirmation`:
whether it returned `True` (the transaction confirmed), how many status
queries it issued, and how many times it slept. -/
structure WaitTrace where
  confirmed : Bool
  queries : Nat
  sleeps : Nat
deriving DecidableEq

/-- A status-query result signals success when the command succeeded and its
stdout contains `AcceptedOnL2` or `Succeeded` (utils.py line 179). -/
def isSuccessStatus (r : CmdResult) : Bool :=
  r.success && (occurs "AcceptedOnL2".data r.stdout || occurs "Succeeded".data r.stdout)

/-- Loop body of `wait_for_confirmation`: `remaining` iterations are left and
the current iteration index is `attempt`; `statuses i` is the result of the
status query issued on attempt `i`.  On a success signal the loop returns
`True` at once; otherwise it sleeps unless this is the last attempt
(`attempt < max_attempts - 1`) and retries. -/
def waitAux (statuses : Nat → CmdResult) (maxAttempts : Nat) :
    Nat → Nat → WaitTrace
  | 0, _ => ⟨false, 0, 0⟩
  | remaining + 1, attempt =>
    if isSuccessStatus (statuses attempt) then ⟨true, 1, 0⟩
    else
      ⟨(waitAux statuses maxAttempts remaining (attempt + 1)).confirmed,
        (waitAux statuses maxAttempts remaining (attempt + 1)).queries + 1,
        (waitAux statuses maxAttempts remaining (attempt + 1)).sleeps +
          (if attempt < maxAttempts - 1 then 1 else 0)⟩

/-- `TransactionWaiter.wait_for_confirmation(tx_hash, max_attempts)`
(utils.py lines 167-188) as a function of the status-query results. -/
def wait_for_confirmation (statuses : Nat → CmdResult) (maxAttempts : Nat) :
    WaitTrace :=
  waitAux statuses maxAttempts maxAttempts 0

/-- `normalize_address` (deployer.py lines 333-338): strip leading zero
digits after the `0x` prefix, keeping a single `0` when the hex part is all
zeros; strings without the prefix are returned unchanged. -/
def normalize_address (addr : Str) : Str :=
  match addr with
  | '0' :: 'x' :: rest =>
    let hexPart := rest.dropWhile (· = '0')
    '0' :: 'x' :: (if hexPart.isEmpty then ['0'] else hexPart)
  | _ => addr

/-- `ContractDeployer.declare_contract` (deployer.py lines 97-156) as a
function of the declare command's result and of the status-query results of
the confirmation wait.  The command's success flag is never consulted; both
stdout and stderr are searched.  A parsed class hash with a parsed
transaction hash requires a confirmed wait (default 60 attempts); a parsed
class hash without a transaction hash is returned as is; when no class hash
parses, the already-declared pattern is tried and its class hash reused;
otherwise the declaration fails (`none`). -/
def declare_contract (declareCmd : CmdResult) (statuses : Nat → CmdResult) :
    Option Str :=
  match parse_class_hash (declareCmd.stdout ++ declareCmd.stderr) with
  | some h =>
    match parse_transaction_hash (declareCmd.stdout ++ declareCmd.stderr) with
    | some _ =>
      if (wait_for_confirmation statuses 60).confirmed then some h else none
    | none => some h
  | none =>
    match alreadyDeclaredSearch (declareCmd.stdout ++ declareCmd.stderr) with
    | some h => some h
    | none => none

/-- Deployment details returned by `ContractDeployer.deploy_contract`: the
parsed contract address and, when one was parsed, the deployment
transaction hash (the `constructor_calldata`/`constructor_params` entries
are carried by the caller and omitted here). -/
structure DeployResult where
  contract_address : Str
  deployment_tx_hash : Option Str
deriving DecidableEq

/-- `ContractDeployer.deploy_contract` (deployer.py lines 158-227) as a
function of the dependency-validation outcome, the deploy command's result
and the status-query results of the confirmation wait.  The address and
transaction hash are parsed from the command's stdout; a parse failure for
the transaction hash is caught and the address returned unconfirmed. -/
def deploy_contract (validateOk : Bool) (deployCmd : CmdResult)
    (statuses : Nat → CmdResult) : Option DeployResult :=
  if !validateOk then none
  else if !deployCmd.success then none
  else
    match parse_contract_address deployCmd.stdout with
    | none => none
    | some addr =>
      match parse_transaction_hash deployCmd.stdout with
      | some tx =>
        if (wait_for_confirmation statuses 60).confirmed then
          some ⟨addr, some tx⟩
        else none
      | none => some ⟨addr, none⟩

/-- `ContractDeployer.validate_registry_address_set` (deployer.py lines
292-356) as a function of the expected registry address and the
`get_registry_address` call's result: the first `0x[a-fA-F0-9]+` match of
stdout is compared with the expected address, both lowercased and then
normalized. -/
def validate_registry_address_set (expected : Str) (callCmd : CmdResult) :
    Bool :=
  if !callCmd.success then false
  else
    match firstHexMatch callCmd.stdout with
    | none => false
    | some ret =>
      normalize_address (toLowerS ret) == normalize_address (toLowerS expected)

/-- Result of `ContractDeployer.set_registry_on_tokencore`: the transaction
hash and calldata of the `set_registry_address` invoke (the constant
`method`/`params`/`validation` entries are omitted). -/
structure SetterResult where
  tx_hash : Str
  calldata : List Str
deriving DecidableEq

/-- External results consumed by one `set_registry_on_tokencore` run: the
invoke command's result, the status-query results of the confirmation wait,
and the `get_registry_address` call's result used by the read-back
validation. -/
structure SetterEnv where
  invokeCmd : CmdResult
  statuses : Nat → CmdResult
  viewCmd : CmdResult

/-- `ContractDeployer.set_registry_on_tokencore` (deployer.py lines
229-290): invoke `set_registry_address`, parse the transaction hash, wait
for confirmation, then validate by read-back; a failed validation returns
`None`.  The `tokencore_address` and `owner_address` parameters only shape
the external command and do not influence the result. -/
def set_registry_on_tokencore (registry_address : Str) (env : SetterEnv) :
    Option SetterResult :=
  if !env.invokeCmd.success then none
  else
    match parse_transaction_hash env.invokeCmd.stdout with
    | none => none
    | some tx =>
      if !(wait_for_confirmation env.statuses 60).confirmed then none
      else if !validate_registry_address_set registry_address env.viewCmd then
        none
      else some ⟨tx, [registry_address]⟩

/-- Python `str(n)` for a non-negative integer. -/
def natToStr (n : Nat) : Str := (Nat.repr n).data

/-- Python `int.from_bytes(chunk, byteorder='big')`. -/
def beBytesToNat (chunk : List Nat) : Nat :=
  chunk.foldl (fun acc b => acc * 256 + b) 0

/-- The 31-byte chunks of `text_bytes` produced by the
`for i in range(0, len(text_bytes), chunk_size)` loop of
`string_to_bytearray_calldata`; `fuel` bounds the recursion and any
`fuel ≥ bytes.length` yields the same chunks. -/
def chunks31Aux : Nat → List Nat → List (List Nat)
  | 0, _ => []
  | _ + 1, [] => []
  | fuel + 1, b :: rest => (b :: rest.take 30) :: chunks31Aux fuel (rest.drop 30)

/-- Split a byte string into 31-byte chunks (last one possibly shorter). -/
def chunks31 (bytes : List Nat) : List (List Nat) :=
  chunks31Aux bytes.length bytes

/-- `StarknetUtils.string_to_bytearray_calldata` (utils.py lines 76-109) on
the UTF-8 bytes of the input text (`text.encode('utf-8')`; the text is
empty iff its byte string is).  Output format:
`[data_len, word1, ..., pending_word, pending_word_len]`.  The Python
locals are inlined: `chunks` is the mapped chunk list, `pending_word` its
last element (`chunks[-1]`, with the unreachable empty default `"0"`),
`full_words` is `chunks[:-1]`, and `last_chunk_len` is
`len(text_bytes) % 31` replaced by 31 when it is 0 (the byte string is
nonempty on this branch). -/
def string_to_bytearray_calldata (bytes : List Nat) : List Str :=
  if bytes.isEmpty then [['0'], ['0'], ['0']]
  else
    natToStr ((chunks31 bytes).map (fun c => natToStr (beBytesToNat c))).dropLast.length ::
      ((chunks31 bytes).map (fun c => natToStr (beBytesToNat c))).dropLast ++
      [((chunks31 bytes).map (fun c => natToStr (beBytesToNat c))).getLastD ['0'],
        natToStr (if bytes.length % 31 = 0 then 31 else bytes.length % 31)]

/-- `KliverRegistry.get_constructor_calldata` (contracts.py lines 61-68):
the fixed list `[owner, nft, token_simulation, verifier]`.  Keyword
arguments are modelled as named parameters, so the order in which a caller
supplies them cannot influence the result. -/
def KliverRegistry.get_constructor_calldata (owner_address nft_address
    token_simulation_address verifier_address : Str) : List Str :=
  [owner_address, nft_address, token_simulation_address, verifier_address]

/-- Python exceptions raised by the modelled code paths. -/
inductive PyError
  | typeError
  | valueError
deriving DecidableEq

/-- `SessionsMarketplace.get_constructor_calldata` (contracts.py lines
153-168): raises `ValueError` when any of the three dependency addresses is
missing/empty or the timeout is zero (Python falsiness), and otherwise
returns `[pox, verifier, payment_token, str(timeout)]` — the
`owner_address` parameter is accepted but not placed in the calldata. -/
def SessionsMarketplace.get_constructor_calldata (owner_address pox_address
    verifier_address payment_token_address : Str)
    (purchase_timeout_seconds : Nat) : Except PyError (List Str) :=
  if pox_address.isEmpty || verifier_address.isEmpty ||
      payment_token_address.isEmpty || purchase_timeout_seconds = 0 then
    .error .valueError
  else
    .ok [pox_address, verifier_address, payment_token_address,
      natToStr purchase_timeout_seconds]

/-- Per-step outcomes consumed by one `deploy_all_contracts` run
(deploy.py lines 203-436).  `α` is the type of the deployment-details
dictionaries returned by `deploy_full_flow`, `β` the type of the
`set_registry_on_tokencore` result.  Each `Option` input is the value
returned by the corresponding external call; the flags record whether the
optional marketplaces are present in the environment's contract
configuration and whether the SessionsMarketplace parameters resolve. -/
structure OrchestratorEnv (α β : Type) where
  nftResult : Option α
  tokenResult : Option α
  registryResult : Option α
  poxResult : Option α
  setRegistryResult : Option β
  sessionMarketplaceConfigured : Bool
  smResult : Option α
  sessionsMarketplaceConfigured : Bool
  advParamsOk : Bool
  advResult : Option α

/-- `deploy_all_contracts` (deploy.py lines 203-436): returns the success
flag together with the `deployments` list accumulated by appending each
successful result in order.  The core steps (NFT, TokenSimulation,
Registry, KlivePox, then `set_registry_on_tokencore`) return `False` with
the partial list on failure; the KlivePox-in-Registry wiring commands
between steps 4 and 5 only log and never change the returned value; the
optional marketplace deployments log "skipping" on failure and the run
still returns `True`. -/
def deploy_all_contracts (env : OrchestratorEnv α β) : Bool × List α :=
  match env.nftResult with
  | none => (false, [])
  | some nft =>
    match env.tokenResult with
    | none => (false, [nft])
    | some tok =>
      match env.registryResult with
      | none => (false, [nft, tok])
      | some reg =>
        match env.poxResult with
        | none => (false, [nft, tok, reg])
        | some pox =>
          match env.setRegistryResult with
          | none => (false, [nft, tok, reg, pox])
          | some _ =>
            let ds1 := [nft, tok, reg, pox]
            let ds2 :=
              if env.sessionMarketplaceConfigured then
                match env.smResult with
                | some sm => ds1 ++ [sm]
                | none => ds1
              else ds1
            let ds3 :=
              if env.sessionsMarketplaceConfigured && env.advParamsOk then
                match env.advResult with
                | some adv => ds2 ++ [adv]
                | none => ds2
              else ds2
            (true, ds3)

/-- Per-environment network configuration (config.py `NetworkConfig`): the
fields read by `ContractDeployer.__init__`. -/
structure NetworkConfig where
  account : Str
  rpc_url : Str
  network : Str

/-- The contract types registered in the `CONTRACTS` factory of
contracts.py (initial mapping plus the three `CONTRACTS.update` calls). -/
def contractFactoryKeys : List Str :=
  ["nft".data, "registry".data, "kliver_tokens_core".data,
   "session_marketplace".data, "sessions_marketplace".data,
   "klive_pox".data, "simple_erc20".data]

/-- `get_contract` (contracts.py lines 122-128): unknown contract types
raise `ValueError`. -/
def get_contract (contract_type : Str) : Except PyError Unit :=
  if contract_type ∈ contractFactoryKeys then .ok () else .error .valueError

/-- `TransactionWaiter.__init__` (utils.py lines 163-165) applied to a list
of positional arguments: the parameter list is `(account, rpc_url)`, with
no defaults, so Python binds exactly two positional arguments and raises
`TypeError` for any other count. -/
def TransactionWaiter.init (args : List Str) : Except PyError (Str × Str) :=
  match args with
  | [account, rpc_url] => .ok (account, rpc_url)
  | _ => .error .typeError

/-- `ContractDeployer.__init__` (deployer.py lines 18-40) after the
configuration lookups (whose results are the given `NetworkConfig`):
resolves the contract type via `get_contract`, then constructs the
transaction waiter with the three positional arguments
`(account, rpc_url, network)` (line 40). -/
def ContractDeployer.init (cfg : NetworkConfig) (contract_type : Str) :
    Except PyError (Str × Str) :=
  match get_contract contract_type with
  | .error e => .error e
  | .ok _ =>
    TransactionWaiter.init [cfg.account, cfg.rpc_url, cfg.network]

/-- A status-query result whose stdout reports a rejected transaction and
no success marker. -/
def rejectedStatuses : Nat → CmdResult :=
  fun _ => ⟨true, "Transaction status: Rejected".data, []⟩

/-- A status-query result that stays pending forever. -/
def pendingStatuses : Nat → CmdResult :=
  fun _ => ⟨true, "Transaction status: Received".data, []⟩

/-- A status query that reports acceptance at once. -/
def acceptedStatuses : Nat → CmdResult :=
  fun _ => ⟨true, "AcceptedOnL2".data, []⟩

/-- A status query whose command always fails (treated as still pending). -/
def failingStatuses : Nat → CmdResult := fun _ => ⟨false, [], []⟩

/-- Setter run in which the invoke succeeds and confirms but the read-back
returns `0x999` while `0x1` was set. -/
def mismatchSetterEnv : SetterEnv where
  invokeCmd := ⟨true, "transaction_hash: 0xaaa".data, []⟩
  statuses := acceptedStatuses
  viewCmd := ⟨true, "0x999".data, []⟩

/-- Deploy-command output carrying a contract address but no transaction
hash. -/
def addrOnlyDeployCmd : CmdResult :=
  ⟨true, "Contract Address: 0xabc".data, []⟩

/-- Deploy-command output carrying both a contract address and a
transaction hash. -/
def fullDeployCmd : CmdResult :=
  ⟨true, "contract_address: 0xabc transaction_hash: 0x111".data, []⟩

/-- Declare output of a fresh declaration of class `0xabc`. -/
def freshDeclareCmd : CmdResult :=
  ⟨true, "class_hash: 0xabc transaction_hash: 0x111".data, []⟩

/-- Declare output of a repeated declaration of class `0xabc`: the chain
reports the already-declared condition on stderr. -/
def repeatDeclareCmd : CmdResult :=
  ⟨false, [], "Error: Class with hash 0xabc is already declared".data⟩

/-- Orchestrator run in which the four core contracts and the registry
wiring succeed, the configured `session_marketplace` deployment fails, and
the configured `sessions_marketplace` deployment succeeds. -/
def smFailEnv : OrchestratorEnv Nat Unit where
  nftResult := some 1
  tokenResult := some 2
  registryResult := some 3
  poxResult := some 4
  setRegistryResult := some ()
  sessionMarketplaceConfigured := true
  smResult := none
  sessionsMarketplaceConfigured := true
  advParamsOk := true
  advResult := some 6

/-- Orchestrator run in which the second core contract (TokenSimulation)
fails; the later steps' inputs are populated to show they are ignored. -/
def tokenFailEnv : OrchestratorEnv Nat Unit where
  nftResult := some 1
  tokenResult := none
  registryResult := some 3
  poxResult := some 4
  setRegistryResult := some ()
  sessionMarketplaceConfigured := true
  smResult := some 5
  sessionsMarketplaceConfigured := true
  advParamsOk := true
  advResult := some 6

/-- Any run of the waiter loop over statuses that never signal success
issues one query per remaining attempt, sleeps on every attempt except the
last, and ends unconfirmed. -/
theorem waitAux_all_pending (statuses : Nat → CmdResult) (m r a : Nat)
    (h : ∀ i, isSuccessStatus (statuses i) = false) (hm : a + r = m) :
    waitAux statuses m r a = ⟨false, r, r - 1⟩ := by
  induction r generalizing a with
  | zero => rfl
  | succ r ih =>
    have hrest : waitAux statuses m r (a + 1) = ⟨false, r, r - 1⟩ :=
      ih (a + 1) (by omega)
    simp only [waitAux, h a, Bool.false_eq_true, if_false, hrest]
    have hs : r - 1 + (if a < m - 1 then 1 else 0) = r + 1 - 1 := by
      split <;> omega
    rw [hs]

/-- Claim C5: if every status query reports a non-terminal result, then
`wait_for_confirmation` with `max_attempts = n` issues exactly `n` status
queries, sleeps exactly `n - 1` times, and returns the timed-out outcome
(`False`); in particular with `max_attempts = 3` it issues 3 queries and
sleeps twice. -/
theorem wait_all_pending_times_out (statuses : Nat → CmdResult) (n : Nat)
    (h : ∀ i, isSuccessStatus (statuses i) = false) :
    wait_for_confirmation statuses n = ⟨false, n, n - 1⟩ :=
  waitAux_all_pending statuses n n 0 h (by omega)

/-- Witness for C5: with a status query that always answers "still
pending", `wait_for_confirmation` with 3 attempts makes exactly 3 queries,
sleeps exactly twice, and times out. -/
theorem wait_all_pending_times_out_witness :
    wait_for_confirmation pendingStatuses 3 = ⟨false, 3, 2⟩ :=
  wait_all_pending_times_out pendingStatuses 3 (fun _ => rfl)

/-- Counterexample for C2: on a status stream whose first query already
signals rejection (stdout reports `Rejected`, the command itself
succeeded), `wait_for_confirmation` with 2 attempts does not return after
the first query without sleeping: it issues 2 queries and sleeps once,
because the loop has no rejection branch at all. -/
theorem wait_rejection_not_immediate_cex :
    occurs "Rejected".data (rejectedStatuses 0).stdout = true ∧
      (rejectedStatuses 0).success = true ∧
      wait_for_confirmation rejectedStatuses 2 = ⟨false, 2, 1⟩ := by
  decide

/-- Claim C2 amended: a status query signalling rejection is not detected by
`wait_for_confirmation`; it is treated exactly like a still-pending result,
so the waiter sleeps and retries, returning the failed outcome only after
exhausting all `n` attempts (`n` queries and `n - 1` sleeps). -/
theorem wait_rejection_retries_to_timeout (statuses : Nat → CmdResult)
    (n : Nat)
    (h : ∀ i, occurs "Rejected".data (statuses i).stdout = true ∧
      isSuccessStatus (statuses i) = false) :
    wait_for_confirmation statuses n = ⟨false, n, n - 1⟩ :=
  waitAux_all_pending statuses n n 0 (fun i => (h i).2) (by omega)

/-- Witness for C2's amended claim at a concrete rejecting stream. -/
theorem wait_rejection_retries_to_timeout_witness :
    wait_for_confirmation rejectedStatuses 4 = ⟨false, 4, 3⟩ :=
  wait_rejection_retries_to_timeout rejectedStatuses 4
    (fun _ => ⟨rfl, rfl⟩)

/-- Dropping leading `'0'` characters ignores any run of `'0'`s prepended to
the string. -/
theorem dropZeros_replicate (k : Nat) (s : Str) :
    (List.replicate k '0' ++ s).dropWhile (· = '0') = s.dropWhile (· = '0') := by
  induction k with
  | zero => rfl
  | succ k ih =>
    simp only [List.replicate_succ, List.cons_append, List.dropWhile_cons]
    simp [ih]

/-- Claim C8: `normalize_address` equates differently-padded representations
of the same value — `normalize("0x0000abc") = normalize("0xabc")` and
`normalize("0x0") = normalize("0x00")`; in general prepending zero digits
after the `0x` prefix does not change the normalized form; and the
read-back verification check of `validate_registry_address_set` succeeds
exactly when the two (lowercased) addresses have equal normalized forms. -/
theorem normalize_address_padding_equiv :
    normalize_address "0x0000abc".data = normalize_address "0xabc".data ∧
    normalize_address "0x0".data = normalize_address "0x00".data ∧
    (∀ (k : Nat) (s : Str),
      normalize_address ('0' :: 'x' :: (List.replicate k '0' ++ s)) =
        normalize_address ('0' :: 'x' :: s)) ∧
    (∀ (expected : Str) (callCmd : CmdResult) (ret : Str),
      callCmd.success = true → firstHexMatch callCmd.stdout = some ret →
      (validate_registry_address_set expected callCmd = true ↔
        normalize_address (toLowerS ret) = normalize_address (toLowerS expected))) := by
  refine ⟨by decide, by decide, ?_, ?_⟩
  · intro k s
    simp only [normalize_address, dropZeros_replicate]
  · intro expected callCmd ret hs hm
    simp only [validate_registry_address_set, hs, Bool.not_true,
      Bool.false_eq_true, if_false, hm, beq_iff_eq]

/-- Witness for C8 at concrete inputs. -/
theorem normalize_address_padding_equiv_witness :
    normalize_address ('0' :: 'x' :: (List.replicate 3 '0' ++ "abc".data)) =
      normalize_address ('0' :: 'x' :: "abc".data) ∧
    (validate_registry_address_set "0x00AB".data ⟨true, "0xab".data, []⟩ = true ↔
      normalize_address (toLowerS "0xab".data) =
        normalize_address (toLowerS "0x00AB".data)) :=
  ⟨normalize_address_padding_equiv.2.2.1 3 "abc".data,
    normalize_address_padding_equiv.2.2.2 "0x00AB".data ⟨true, "0xab".data, []⟩
      "0xab".data rfl (by decide)⟩

/-- Claim C9: constructing a `ContractDeployer` raises `TypeError` for every
network configuration and every registered contract type, because
`__init__` passes the three positional arguments
`(account, rpc_url, network)` to `TransactionWaiter.__init__`, which binds
only `(account, rpc_url)`; hence no flow that instantiates
`ContractDeployer` can proceed past construction. -/
theorem contract_deployer_init_raises_type_error (cfg : NetworkConfig)
    (t : Str) (h : t ∈ contractFactoryKeys) :
    ContractDeployer.init cfg t = .error .typeError := by
  simp only [ContractDeployer.init, get_contract, if_pos h]
  rfl

/-- Witness for C9: constructing the deployer for the `nft` contract type
with a concrete configuration raises `TypeError`. -/
theorem contract_deployer_init_raises_type_error_witness :
    ContractDeployer.init ⟨"deployer".data, "http: url".data, "sepolia".data⟩
      "nft".data = .error .typeError :=
  contract_deployer_init_raises_type_error _ "nft".data (by decide)

/-- Counterexample for C3: `SessionsMarketplace.get_constructor_calldata`
does not put the owner address first — the owner does not appear in the
assembled calldata at all; the list is `[pox, verifier, payment_token,
str(timeout)]`. -/
theorem sessions_marketplace_omits_owner_cex :
    SessionsMarketplace.get_constructor_calldata "0xaaa111".data "0x1".data
      "0x2".data "0x3".data 5 =
      .ok ["0x1".data, "0x2".data, "0x3".data, "5".data] ∧
    "0xaaa111".data ∉ ["0x1".data, "0x2".data, "0x3".data, "5".data] := by
  constructor
  · rfl
  · decide

/-- Claim C3 amended: constructor calldata is assembled in a fixed,
contract-type-specific order independent of how keyword arguments are
supplied, but the owner only leads the list for the contract types whose
constructors include it: `KliverRegistry` assembles
`[owner, nft, token_simulation, verifier]`, while `SessionsMarketplace`
omits the owner and assembles
`[pox, verifier, payment_token, str(timeout)]`. -/
theorem constructor_calldata_fixed_order :
    (∀ o n ts v : Str,
      KliverRegistry.get_constructor_calldata o n ts v = [o, n, ts, v]) ∧
    (∀ (o p v pt : Str) (t : Nat), p ≠ [] → v ≠ [] → pt ≠ [] → t ≠ 0 →
      SessionsMarketplace.get_constructor_calldata o p v pt t =
        .ok [p, v, pt, natToStr t]) := by
  constructor
  · intro o n ts v
    rfl
  · intro o p v pt t hp hv hpt ht
    simp [SessionsMarketplace.get_constructor_calldata,
      List.isEmpty_iff, hp, hv, hpt, ht]

/-- Witness for C3's amended claim at concrete arguments. -/
theorem constructor_calldata_fixed_order_witness :
    KliverRegistry.get_constructor_calldata "0xo".data "0xn".data "0xt".data
      "0xv".data = ["0xo".data, "0xn".data, "0xt".data, "0xv".data] ∧
    SessionsMarketplace.get_constructor_calldata "0xo".data "0xp".data
      "0xv".data "0xpt".data 30 =
      .ok ["0xp".data, "0xv".data, "0xpt".data, natToStr 30] :=
  ⟨constructor_calldata_fixed_order.1 _ _ _ _,
    constructor_calldata_fixed_order.2 "0xo".data "0xp".data "0xv".data
      "0xpt".data 30 (by decide) (by decide) (by decide) (by decide)⟩

/-- A failed read-back validation makes `set_registry_on_tokencore` return
`None` on every path. -/
theorem set_registry_on_tokencore_of_validate_false (registry : Str)
    (env : SetterEnv)
    (hval : validate_registry_address_set registry env.viewCmd = false) :
    set_registry_on_tokencore registry env = none := by
  unfold set_registry_on_tokencore
  rw [hval]
  cases env.invokeCmd.success
  · rfl
  · cases parse_transaction_hash env.invokeCmd.stdout
    · rfl
    · cases (wait_for_confirmation env.statuses 60).confirmed <;> rfl

/-- Counterexample for C1: a `set_registry_on_tokencore` run whose invoke
succeeded and confirmed but whose read-back returned `0x999` instead of the
`0x1` that was set returns `None` — the mismatch aborts the setter instead
of being a non-fatal warning. -/
theorem set_registry_mismatch_aborts_cex :
    mismatchSetterEnv.invokeCmd.success = true ∧
    (wait_for_confirmation mismatchSetterEnv.statuses 60).confirmed = true ∧
    firstHexMatch mismatchSetterEnv.viewCmd.stdout = some "0x999".data ∧
    normalize_address (toLowerS "0x999".data) ≠
      normalize_address (toLowerS "0x1".data) ∧
    set_registry_on_tokencore "0x1".data mismatchSetterEnv = none := by
  decide

/-- Claim C1 amended: when the read-back verification of
`set_registry_on_tokencore` obtains a value whose normalized form differs
from the registry address that was set, the mismatch is logged as an error
and aborts that setter: the operation returns `None` even though the
invoke transaction itself succeeded and was confirmed. -/
theorem set_registry_on_tokencore_mismatch_returns_none (registry : Str)
    (env : SetterEnv) (ret : Str)
    (hview : env.viewCmd.success = true)
    (hret : firstHexMatch env.viewCmd.stdout = some ret)
    (hne : normalize_address (toLowerS ret) ≠
      normalize_address (toLowerS registry)) :
    set_registry_on_tokencore registry env = none := by
  apply set_registry_on_tokencore_of_validate_false
  simp only [validate_registry_address_set, hview, Bool.not_true,
    Bool.false_eq_true, if_false, hret]
  exact beq_eq_false_iff_ne.mpr hne

/-- Witness for C1's amended claim at the concrete mismatching run. -/
theorem set_registry_on_tokencore_mismatch_returns_none_witness :
    set_registry_on_tokencore "0x1".data mismatchSetterEnv = none :=
  set_registry_on_tokencore_mismatch_returns_none "0x1".data mismatchSetterEnv
    "0x999".data rfl (by decide) (by decide)

/-- Counterexample for C4: when the deploy output carries a contract
address but no parseable transaction hash, `deploy_contract` returns a
usable (non-`None`) result without any confirmed deployment transaction —
the status stream here never confirms anything. -/
theorem deploy_contract_unconfirmed_address_cex :
    parse_transaction_hash addrOnlyDeployCmd.stdout = none ∧
    (wait_for_confirmation failingStatuses 60).confirmed = false ∧
    deploy_contract true addrOnlyDeployCmd failingStatuses =
      some ⟨"0xabc".data, none⟩ := by
  decide

/-- Claim C4 amended: when a transaction hash is parsed from the deploy
output, `deploy_contract` yields a non-`None` result only if the
confirmation wait succeeds — a `Failed`/`TimedOut` wait aborts the whole
contract deployment with `None` — but when no transaction hash can be
parsed, the contract address is returned without confirmation (with a
warning). -/
theorem deploy_contract_confirmation_gate (v : Bool) (cmd : CmdResult)
    (st : Nat → CmdResult) :
    (∀ tx, parse_transaction_hash cmd.stdout = some tx →
      (wait_for_confirmation st 60).confirmed = false →
      deploy_contract v cmd st = none) ∧
    (∀ r, deploy_contract v cmd st = some r →
      r.deployment_tx_hash.isSome = true →
      (wait_for_confirmation st 60).confirmed = true) := by
  constructor
  · intro tx htx hw
    unfold deploy_contract
    cases v
    · rfl
    · cases cmd.success
      · rfl
      · cases haddr : parse_contract_address cmd.stdout
        · rfl
        · rw [htx, hw]
          rfl
  · intro r hr hsome
    unfold deploy_contract at hr
    split at hr
    · exact Option.noConfusion hr
    · split at hr
      · exact Option.noConfusion hr
      · split at hr
        · exact Option.noConfusion hr
        · split at hr
          · split at hr
            · assumption
            · exact Option.noConfusion hr
          · cases hr
            simp at hsome

/-- Witness for C4's amended claim: a deploy whose output carries a
transaction hash that never confirms returns `None`. -/
theorem deploy_contract_confirmation_gate_witness :
    deploy_contract true fullDeployCmd failingStatuses = none :=
  (deploy_contract_confirmation_gate true fullDeployCmd failingStatuses).1
    "0x111".data (by decide) (by decide)

/-- Claim C6: declaring an already-registered artifact is not an error.
When the first declare reports a fresh class hash (and either carries no
transaction hash or the transaction confirms) and the second declare's
output parses no class hash but carries the already-declared indication
with the same class hash, both calls of `declare_contract` return that same
class identifier — the idempotent-declare scenario. -/
theorem declare_contract_idempotent (cmd1 : CmdResult)
    (st1 : Nat → CmdResult) (cmd2 : CmdResult) (st2 : Nat → CmdResult)
    (h : Str)
    (h1 : parse_class_hash (cmd1.stdout ++ cmd1.stderr) = some h)
    (h1c : parse_transaction_hash (cmd1.stdout ++ cmd1.stderr) = none ∨
      (wait_for_confirmation st1 60).confirmed = true)
    (h2 : parse_class_hash (cmd2.stdout ++ cmd2.stderr) = none)
    (h2a : alreadyDeclaredSearch (cmd2.stdout ++ cmd2.stderr) = some h) :
    declare_contract cmd1 st1 = some h ∧ declare_contract cmd2 st2 = some h := by
  constructor
  · unfold declare_contract
    rw [h1]
    rcases h1c with htx | hc
    · rw [htx]
    · cases htx : parse_transaction_hash (cmd1.stdout ++ cmd1.stderr)
      · rfl
      · rw [hc]
        rfl
  · unfold declare_contract
    rw [h2, h2a]

/-- Witness for C6: a fresh declaration of `0xabc` followed by a repeat
declaration answered with the already-declared condition returns `0xabc`
both times. -/
theorem declare_contract_idempotent_witness :
    declare_contract freshDeclareCmd acceptedStatuses = some "0xabc".data ∧
    declare_contract repeatDeclareCmd acceptedStatuses = some "0xabc".data :=
  declare_contract_idempotent freshDeclareCmd acceptedStatuses
    repeatDeclareCmd acceptedStatuses "0xabc".data (by decide)
    (Or.inr (by decide)) (by decide) (by decide)

/-- Counterexample for C7: with the four core contracts and the registry
wiring succeeding, a configured `session_marketplace` whose deployment
fails is merely skipped — the run still reports success and the later
`sessions_marketplace` deployment is still attempted (its record `6` is
appended) — so a failing contract deployment does not always stop the
orchestrator. -/
theorem deploy_all_marketplace_failure_continues_cex :
    smFailEnv.sessionMarketplaceConfigured = true ∧
    smFailEnv.smResult = none ∧
    deploy_all_contracts smFailEnv = (true, [1, 2, 3, 4, 6]) := by
  decide

/-- Claim C7 amended: a failure of any of the core plan steps (NFT,
TokenSimulation, Registry, KlivePox, or the TokenSimulation-registry
configuration step) stops the run immediately — the run reports failure
and the accumulated list holds exactly the records completed before the
failing step, independent of anything configured after it (so if the
second core contract fails, exactly one record is returned and no later
contract is attempted); only the optional marketplace deployments are
skipped on failure. -/
theorem deploy_all_core_failure_stops {α β : Type}
    (env : OrchestratorEnv α β) :
    (env.nftResult = none → deploy_all_contracts env = (false, [])) ∧
    (∀ a1, env.nftResult = some a1 → env.tokenResult = none →
      deploy_all_contracts env = (false, [a1])) ∧
    (∀ a1 a2, env.nftResult = some a1 → env.tokenResult = some a2 →
      env.registryResult = none →
      deploy_all_contracts env = (false, [a1, a2])) ∧
    (∀ a1 a2 a3, env.nftResult = some a1 → env.tokenResult = some a2 →
      env.registryResult = some a3 → env.poxResult = none →
      deploy_all_contracts env = (false, [a1, a2, a3])) ∧
    (∀ a1 a2 a3 a4, env.nftResult = some a1 → env.tokenResult = some a2 →
      env.registryResult = some a3 → env.poxResult = some a4 →
      env.setRegistryResult = none →
      deploy_all_contracts env = (false, [a1, a2, a3, a4])) := by
  refine ⟨?_, ?_, ?_, ?_, ?_⟩
  · intro h1
    unfold deploy_all_contracts
    rw [h1]
  · intro a1 h1 h2
    unfold deploy_all_contracts
    rw [h1, h2]
  · intro a1 a2 h1 h2 h3
    unfold deploy_all_contracts
    rw [h1, h2, h3]
  · intro a1 a2 a3 h1 h2 h3 h4
    unfold deploy_all_contracts
    rw [h1, h2, h3, h4]
  · intro a1 a2 a3 a4 h1 h2 h3 h4 h5
    unfold deploy_all_contracts
    rw [h1, h2, h3, h4, h5]

/-- Witness for C7's amended claim: in the run where the second core
contract (TokenSimulation) fails, exactly one completed record (the NFT's)
is returned with the failure flag, even though the inputs for every later
step are populated. -/
theorem deploy_all_core_failure_stops_witness :
    deploy_all_contracts tokenFailEnv = (false, [1]) :=
  (deploy_all_core_failure_stops tokenFailEnv).2.1 1 rfl rfl

/-- Chunking the empty byte string gives no chunks, for any fuel. -/
theorem chunks31Aux_nil (fuel : Nat) : chunks31Aux fuel [] = [] := by
  cases fuel <;> rfl

/-- With enough fuel, the number of 31-byte chunks is the rounded-up
quotient of the byte length by 31. -/
theorem chunks31Aux_length (fuel : Nat) :
    ∀ l : List Nat, l.length ≤ fuel →
      (chunks31Aux fuel l).length = (l.length + 30) / 31 := by
  induction fuel with
  | zero =>
    intro l hl
    have hnil : l = [] := List.eq_nil_of_length_eq_zero (Nat.le_zero.mp hl)
    subst hnil
    rfl
  | succ fuel ih =>
    intro l hl
    match l with
    | [] => rfl
    | b :: rest =>
      show ((b :: rest.take 30) :: chunks31Aux fuel (rest.drop 30)).length = _
      have hrl : rest.length + 1 ≤ fuel + 1 := hl
      have hrest : (rest.drop 30).length ≤ fuel := by
        simp only [List.length_drop]
        omega
      rw [List.length_cons, ih _ hrest]
      simp only [List.length_drop, List.length_cons]
      omega

/-- A nonempty byte string has at least one chunk. -/
theorem chunks31Aux_ne_nil (fuel : Nat) (l : List Nat) (h : l ≠ [])
    (hl : l.length ≤ fuel) : chunks31Aux fuel l ≠ [] := by
  intro hc
  have hlen := chunks31Aux_length fuel l hl
  rw [hc] at hlen
  have hpos : 0 < l.length := List.length_pos.mpr h
  simp only [List.length_nil] at hlen
  omega

/-- The last chunk of a nonempty byte string consists of the bytes from
offset `31 * (numChunks - 1)` on. -/
theorem chunks31Aux_getLast (fuel : Nat) :
    ∀ l : List Nat, l ≠ [] → l.length ≤ fuel →
      (chunks31Aux fuel l).getLast? =
        some (l.drop (31 * ((l.length + 30) / 31 - 1))) := by
  induction fuel with
  | zero =>
    intro l h hl
    exact absurd (List.eq_nil_of_length_eq_zero (Nat.le_zero.mp hl)) h
  | succ fuel ih =>
    intro l h hl
    match l with
    | [] => exact absurd rfl h
    | b :: rest =>
      show ((b :: rest.take 30) :: chunks31Aux fuel (rest.drop 30)).getLast? = _
      have hrl : rest.length + 1 ≤ fuel + 1 := hl
      by_cases hr : rest.length ≤ 30
      · rw [List.drop_of_length_le hr, chunks31Aux_nil,
          List.take_of_length_le hr]
        have hk : ((b :: rest).length + 30) / 31 - 1 = 0 := by
          simp only [List.length_cons]
          omega
        rw [hk]
        rfl
      · push_neg at hr
        have hne : rest.drop 30 ≠ [] := by
          intro hd
          have hdl := congrArg List.length hd
          simp only [List.length_drop, List.length_nil] at hdl
          omega
        have hlen : (rest.drop 30).length ≤ fuel := by
          simp only [List.length_drop]
          omega
        have htail := chunks31Aux_ne_nil fuel _ hne hlen
        match hch : chunks31Aux fuel (rest.drop 30) with
        | [] => exact absurd hch htail
        | y :: t =>
          rw [List.getLast?_cons_cons]
          rw [← hch, ih _ hne hlen]
          simp only [List.length_drop, List.drop_drop, List.length_cons]
          obtain ⟨m, hm⟩ : ∃ m, 31 * ((rest.length + 1 + 30) / 31 - 1) = m + 1 := by
            refine ⟨31 * ((rest.length + 1 + 30) / 31 - 1) - 1, ?_⟩
            omega
          rw [hm, List.drop_succ_cons]
          have harg : 30 + 31 * ((rest.length - 30 + 30) / 31 - 1) = m := by
            omega
          rw [harg]

/-- Claim C10: `string_to_bytearray_calldata` is total and shape-correct.
The empty byte string yields `["0", "0", "0"]`; a nonempty byte string of
`n` bytes yields a list of length `ceil(n/31) + 2` whose first element is
the decimal string of `ceil(n/31) - 1` (the number of full words), whose
second-to-last element is the pending word (the big-endian value of the
final chunk, the bytes from offset `31 * (ceil(n/31) - 1)` on), and whose
last element is the decimal string of `n % 31`, replaced by `"31"` when
`n` is a positive multiple of 31. -/
theorem string_to_bytearray_calldata_shape :
    string_to_bytearray_calldata [] = [['0'], ['0'], ['0']] ∧
    ∀ bytes : List Nat, bytes ≠ [] →
      (string_to_bytearray_calldata bytes).length =
        (bytes.length + 30) / 31 + 2 ∧
      (string_to_bytearray_calldata bytes).head? =
        some (natToStr ((bytes.length + 30) / 31 - 1)) ∧
      (string_to_bytearray_calldata bytes).getLast? =
        some (natToStr
          (if bytes.length % 31 = 0 then 31 else bytes.length % 31)) ∧
      (string_to_bytearray_calldata bytes)[(bytes.length + 30) / 31]? =
        some (natToStr (beBytesToNat
          (bytes.drop (31 * ((bytes.length + 30) / 31 - 1))))) := by
  constructor
  · rfl
  · intro bytes h
    have hie : bytes.isEmpty = false := by
      cases bytes with
      | nil => exact absurd rfl h
      | cons a t => rfl
    have hpos : 0 < bytes.length := List.length_pos.mpr h
    have hcl_len : (chunks31 bytes).length = (bytes.length + 30) / 31 :=
      chunks31Aux_length bytes.length bytes le_rfl
    have hcl_last : (chunks31 bytes).getLast? =
        some (bytes.drop (31 * ((bytes.length + 30) / 31 - 1))) :=
      chunks31Aux_getLast bytes.length bytes h le_rfl
    have hm_len :
        ((chunks31 bytes).map (fun c => natToStr (beBytesToNat c))).length =
          (bytes.length + 30) / 31 := by
      rw [List.length_map, hcl_len]
    have hm_last :
        ((chunks31 bytes).map (fun c => natToStr (beBytesToNat c))).getLast? =
          some (natToStr (beBytesToNat
            (bytes.drop (31 * ((bytes.length + 30) / 31 - 1))))) := by
      rw [List.getLast?_map, hcl_last]
      rfl
    have hfw_len :
        ((chunks31 bytes).map (fun c => natToStr (beBytesToNat c))).dropLast.length =
          (bytes.length + 30) / 31 - 1 := by
      rw [List.length_dropLast, hm_len]
    refine ⟨?_, ?_, ?_, ?_⟩
    · simp only [string_to_bytearray_calldata, hie, Bool.false_eq_true,
        if_false]
      simp only [List.length_cons, List.length_append, List.length_nil,
        hfw_len]
      omega
    · simp only [string_to_bytearray_calldata, hie, Bool.false_eq_true,
        if_false]
      rw [List.cons_append, List.head?_cons, hfw_len]
    · simp only [string_to_bytearray_calldata, hie, Bool.false_eq_true,
        if_false]
      have hsplit : ∀ (a p q : Str) (fw : List Str),
          a :: fw ++ [p, q] = (a :: (fw ++ [p])) ++ [q] := by
        intro a p q fw
        simp
      rw [hsplit, List.getLast?_concat]
    · simp only [string_to_bytearray_calldata, hie, Bool.false_eq_true,
        if_false]
      obtain ⟨k0, hk0⟩ : ∃ k0, (bytes.length + 30) / 31 = k0 + 1 :=
        ⟨(bytes.length + 30) / 31 - 1, by omega⟩
      rw [hk0] at hm_last ⊢
      rw [List.cons_append, List.getElem?_cons_succ]
      have hfw0 :
          ((chunks31 bytes).map (fun c => natToStr (beBytesToNat c))).dropLast.length =
            k0 := by
        rw [hfw_len, hk0]
        omega
      rw [List.getElem?_append_right (le_of_eq hfw0), hfw0, Nat.sub_self]
      rw [List.getElem?_cons_zero]
      rw [List.getLastD_eq_getLast?, hm_last]
      rfl

/-- Witness for C10 at the two-byte string (e.g. the UTF-8 bytes of
`"hi"`): one chunk, so the result has length 3, zero full words, the
pending word is the whole byte string's value and the last element is the
decimal string of 2. -/
theorem string_to_bytearray_calldata_shape_witness :
    (string_to_bytearray_calldata [104, 105]).length =
        (([104, 105] : List Nat).length + 30) / 31 + 2 ∧
      (string_to_bytearray_calldata [104, 105]).head? =
        some (natToStr ((([104, 105] : List Nat).length + 30) / 31 - 1)) ∧
      (string_to_bytearray_calldata [104, 105]).getLast? =
        some (natToStr (if ([104, 105] : List Nat).length % 31 = 0 then 31
          else ([104, 105] : List Nat).length % 31)) ∧
      (string_to_bytearray_calldata
          [104, 105])[(([104, 105] : List Nat).length + 30) / 31]? =
        some (natToStr (beBytesToNat (([104, 105] : List Nat).drop
          (31 * ((([104, 105] : List Nat).length + 30) / 31 - 1))))) :=
  string_to_bytearray_calldata_shape.2 [104, 105] (by decide)
